import Mathlib

/-!
Shallow embedding of the leilão-tracker core pipeline:

* `scripts/enrich-properties.ts` (current revision): neighborhood price
  table, market-price adjustment, area extraction, `R$/m²` computation,
  market-comparison alerts, and the 0-100 deal-quality score;
* the source-collection gate and the manual-override layer of
  `scripts/run-daily.ts`.

Modelling conventions:
* JavaScript numbers are modelled as exact rationals (`ℚ`); `Math.round`
  and `Math.ceil` are `jsRound` / `jsCeil`.
* JS strings are Lean `String`s; the regular expressions used by the code
  are embedded as explicit matchers over `List Char`.
* Optional (possibly-`undefined`) fields are `Option` fields; JS truthiness
  tests on them are spelled out where the code relies on them.
* `encerramento` is modelled as the epoch-millisecond value that
  `new Date(prop.encerramento).getTime()` yields for the stored date
  string, and the wall clock `Date.now()` is an explicit `now` parameter.
-/

namespace Leilao

/-- JS `Math.round`: round half toward positive infinity. -/
def jsRound (x : ℚ) : ℤ := Rat.floor (x + 1/2)

/-- JS `Math.ceil`. -/
def jsCeil (x : ℚ) : ℤ := -(Rat.floor (-x))

/-- ASCII lower-casing, as `String.prototype.toLowerCase` acts on the
ASCII range (the substring needles the code compares against are ASCII). -/
def lc (c : Char) : Char :=
  if 'A' ≤ c ∧ c ≤ 'Z' then Char.ofNat (c.toNat + 32) else c

/-- Whitespace characters recognised by the JS `\s` class that occur in the
data (space, tab, newline, carriage return). -/
def isWSChar (c : Char) : Bool :=
  c == ' ' || c == '\t' || c == '\n' || c == '\r'

/-- The `needle` occurs as a contiguous substring of `hay`
(JS `String.prototype.includes`). -/
def hasSubstr (needle : List Char) : List Char → Bool
  | [] => needle.isEmpty
  | c :: rest => needle.isPrefixOf (c :: rest) || hasSubstr needle rest

/-- JS `hay.includes(needle)` on strings. -/
def strContains (hay needle : String) : Bool :=
  hasSubstr needle.toList hay.toList

/-- Character list of `s.toLowerCase()`. -/
def lowerStr (s : String) : List Char := s.toList.map lc

/-- JS `hay.toLowerCase().includes(needle)` (also used for the
case-insensitive `test` of an alternation-free regex) for an ASCII
lower-case `needle`. -/
def strContainsCI (hay needle : String) : Bool :=
  hasSubstr needle.toList (lowerStr hay)

/-- Accent folding for the Portuguese accented letters occurring in the
neighborhood data, lower- and upper-case. -/
def foldAccent (c : Char) : Char :=
  if c = 'á' ∨ c = 'à' ∨ c = 'â' ∨ c = 'ã' ∨ c = 'ä' ∨
     c = 'Á' ∨ c = 'À' ∨ c = 'Â' ∨ c = 'Ã' ∨ c = 'Ä' then 'a'
  else if c = 'é' ∨ c = 'è' ∨ c = 'ê' ∨ c = 'É' ∨ c = 'È' ∨ c = 'Ê' then 'e'
  else if c = 'í' ∨ c = 'ì' ∨ c = 'î' ∨ c = 'Í' ∨ c = 'Ì' ∨ c = 'Î' then 'i'
  else if c = 'ó' ∨ c = 'ò' ∨ c = 'ô' ∨ c = 'õ' ∨ c = 'ö' ∨
          c = 'Ó' ∨ c = 'Ò' ∨ c = 'Ô' ∨ c = 'Õ' ∨ c = 'Ö' then 'o'
  else if c = 'ú' ∨ c = 'ù' ∨ c = 'û' ∨ c = 'ü' ∨ c = 'Ú' ∨ c = 'Ù' ∨ c = 'Û' ∨ c = 'Ü' then 'u'
  else if c = 'ç' ∨ c = 'Ç' then 'c'
  else c

/-- Collapse runs of whitespace to single spaces and trim both ends.
`started` records whether a non-space character has been emitted,
`pending` whether whitespace was seen since the last emitted character. -/
def collapseWS : List Char → Bool → Bool → List Char
  | [], _, _ => []
  | c :: rest, started, pending =>
    if isWSChar c then collapseWS rest started true
    else
      (if started ∧ pending then [' '] else []) ++ c :: collapseWS rest true false

/-- Modelled from the spec: `normalizeText` lives in `scripts/utils.ts`,
which is not among the provided sources.  Spec §4.1 (Normalizer): pure text
canonicalization — lower-case, strip accents/diacritics, collapse
whitespace, trim. -/
def normalizeText (s : String) : String :=
  String.mk (collapseWS (s.toList.map fun c => foldAccent (lc c)) false false)

/-- A property record (`scripts/types.ts`, `Property` together with the
enrichment fields of `EnrichedProperty`). -/
structure Property where
  id : String
  tipo : String
  bairro : String
  endereco : String
  lance : ℚ
  avaliacao : Option ℚ
  desconto : Option ℚ
  modalidade : String
  encerramento : Option ℚ
  ocupacao : String
  area : Option String
  fonte : String
  link : String
  novo : Bool
  prioridade : Bool
  semVagas : Bool
  alertas : Option (List String)
  quartos : Option ℕ
  vagas : Option ℕ
  precoM2 : Option ℤ
  mediaM2Bairro : Option ℤ
  descontoReal : Option ℤ
  score : Option ℤ
  scoreBreakdown : Option String
deriving DecidableEq

/-- The warning list of a record, with an absent `alertas` read as empty
(the code always accesses it as `prop.alertas || []`). -/
def alertasList (p : Property) : List String := p.alertas.getD []

/-- The static neighborhood price table `NEIGHBORHOOD_PRICE_M2`, in object
insertion order (which is the `Object.entries` iteration order, all keys
being non-numeric strings). -/
def NEIGHBORHOOD_PRICE_M2 : List (String × ℤ) :=
  [ ("batel", 16240)
  , ("bigorrilho", 15061)
  , ("cabral", 13180)
  , ("campo comprido", 12450)
  , ("agua verde", 11768)
  , ("ecoville", 12000)
  , ("centro", 10250)
  , ("portao", 8331)
  , ("novo mundo", 7732)
  , ("alto da xv", 9000)
  , ("hugo lange", 8500)
  , ("juveve", 8800)
  , ("reboucas", 8500)
  , ("cristo rei", 9200)
  , ("jardim social", 7500)
  , ("boa vista", 6845)
  , ("bacacheri", 7200)
  , ("taruma", 6500)
  , ("cajuru", 5500)
  , ("boqueirao", 5800)
  , ("alto boqueirao", 5200)
  , ("xaxim", 5500)
  , ("pinheirinho", 5200)
  , ("sitio cercado", 4800)
  , ("cidade industrial", 7251)
  , ("fazenda rio grande", 4500)
  , ("colombo", 4800)
  , ("sao jose dos pinhais", 5800)
  , ("pinhais", 5500)
  , ("araucaria", 5200)
  , ("campo largo", 4800)
  , ("almirante tamandare", 4200) ]

/-- `adjustedMarketPrice`: 10% auction haircut, then a property-type
multiplier, then `Math.round`.  The `area` and `fonte` parameters are
unused by the source as well. -/
def adjustedMarketPrice (baseAvg : ℚ) (area : Option ℚ) (tipo : String) (fonte : String) : ℤ :=
  let adjusted := baseAvg * (90/100)
  let tipoLower := lowerStr tipo
  let adjusted :=
    if hasSubstr "casa".toList tipoLower || hasSubstr "sobrado".toList tipoLower then
      adjusted * (85/100)
    else if hasSubstr "terreno".toList tipoLower then
      adjusted * (50/100)
    else if hasSubstr "sala".toList tipoLower || hasSubstr "comercial".toList tipoLower then
      adjusted * (65/100)
    else adjusted
  jsRound adjusted

/-- Loop body of `findNeighborhoodBaseAvg`: first table entry whose key is
contained in the normalized neighborhood or contains it. -/
def findBaseAvgAux (norm : String) : List (String × ℤ) → Option ℤ
  | [] => none
  | (key, val) :: rest =>
    if strContains norm key || strContains key norm then some val
    else findBaseAvgAux norm rest

/-- `findNeighborhoodBaseAvg`. -/
def findNeighborhoodBaseAvg (bairro : String) : Option ℤ :=
  findBaseAvgAux (normalizeText bairro) NEIGHBORHOOD_PRICE_M2

/-- `findNeighborhoodAvg`; the `if (!base) return null` guard also rejects
a zero table value. -/
def findNeighborhoodAvg (bairro : String) (area : Option ℚ) (tipo fonte : String) : Option ℤ :=
  match findNeighborhoodBaseAvg bairro with
  | none => none
  | some base =>
    if base == 0 then none
    else some (adjustedMarketPrice (base : ℚ) area tipo fonte)

/-- `expectsParking`. -/
def expectsParking (tipo : String) : Bool :=
  ["apartamento", "casa", "sobrado", "kitnet"].any fun t =>
    hasSubstr t.toList (lowerStr tipo)

/-- Character class `[\d.,]` of the area regex. -/
def isNumChar (c : Char) : Bool := c.isDigit || c == '.' || c == ','

/-- Search for `/([\d.,]+)\s*m/` and return the captured group.  At each
position the greedy run of `[\d.,]` is taken; shortening the run on
backtracking cannot help, because the character after a shortened run is
again in `[\d.,]`, never whitespace or `m` — so attempting only the full
run at each start position is exactly the regex semantics. -/
def findNumBeforeM : List Char → Option (List Char)
  | [] => none
  | c :: rest =>
    if isNumChar c then
      let run := (c :: rest).takeWhile isNumChar
      let tail := (c :: rest).dropWhile isNumChar
      if (tail.dropWhile isWSChar).headD '?' == 'm' then some run
      else findNumBeforeM rest
    else findNumBeforeM rest

/-- JS `String.prototype.replace(',', '.')` replaces only the first
occurrence. -/
def replaceFirstComma : List Char → List Char
  | [] => []
  | c :: rest => if c == ',' then '.' :: rest else c :: replaceFirstComma rest

/-- Decimal value of a digit list. -/
def digitsVal (ds : List Char) : ℕ :=
  ds.foldl (fun acc c => 10 * acc + (c.toNat - 48)) 0

/-- JS `parseFloat` restricted to the strings it is fed here (non-empty
runs of digits, `.` and `,` in which at most the first `,` has been turned
into `.`): leading digits, optionally a dot and more digits; anything
after a second separator is ignored; no digits at all is `NaN`, which the
callers' `val > 0` checks turn into "no value". -/
def parseFloatQ (cs : List Char) : Option ℚ :=
  let intPart := cs.takeWhile Char.isDigit
  let rest := cs.dropWhile Char.isDigit
  match rest with
  | '.' :: rest2 =>
    let fracPart := rest2.takeWhile Char.isDigit
    if intPart.isEmpty && fracPart.isEmpty then none
    else some ((digitsVal intPart : ℚ) + (digitsVal fracPart : ℚ) / ((10 : ℚ) ^ fracPart.length))
  | _ => if intPart.isEmpty then none else some (digitsVal intPart : ℚ)

/-- `extractArea`. -/
def extractArea : Option String → Option ℚ
  | none => none
  | some s =>
    match findNumBeforeM s.toList with
    | none => none
    | some run =>
      match parseFloatQ (replaceFirstComma run) with
      | none => none
      | some val => if val > 0 then some val else none

/-- Strip a case-insensitive ASCII pattern (given lower-case) from the
front of the input, returning the rest. -/
def stripPrefixCI : List Char → List Char → Option (List Char)
  | [], cs => some cs
  | _ :: _, [] => none
  | p :: ps, c :: cs => if lc c == p then stripPrefixCI ps cs else none

/-- Drop leading whitespace (regex `\s*`). -/
def skipWS (cs : List Char) : List Char := cs.dropWhile isWSChar

/-- Does the input start with a digit (regex `\d`)? -/
def digitStart : List Char → Bool
  | [] => false
  | c :: _ => c.isDigit

/-- Tail `(?:N[°º]?\s*)?(\d+)` of the VAGA address regex; the boolean
disjunction mirrors regex backtracking over the optional group. -/
def vagaNumTail (cs : List Char) : Bool :=
  (match cs with
   | [] => false
   | c :: rest =>
     if lc c == 'n' then
       let afterOrd :=
         match rest with
         | [] => rest
         | d :: r2 => if d == '°' || d == 'º' then r2 else rest
       digitStart (skipWS afterOrd)
     else false)
  || digitStart cs

/-- The regex `/VAGA\s*(DE\s*(ESTACIONAMENTO|GARAGEM))?\s*(?:N[°º]?\s*)?(\d+)/i`
matched at the current position. -/
def vagaMatchAt (cs : List Char) : Bool :=
  match stripPrefixCI "vaga".toList cs with
  | none => false
  | some r1 =>
    let r2 := skipWS r1
    let withDE :=
      match stripPrefixCI "de".toList r2 with
      | none => false
      | some r3 =>
        let r4 := skipWS r3
        match stripPrefixCI "estacionamento".toList r4 with
        | some r5 => vagaNumTail (skipWS r5)
        | none =>
          match stripPrefixCI "garagem".toList r4 with
          | some r5 => vagaNumTail (skipWS r5)
          | none => false
    withDE || vagaNumTail r2

/-- Unanchored search with the VAGA regex (JS `String.prototype.match`). -/
def vagaSearch : List Char → Bool
  | [] => false
  | c :: rest => vagaMatchAt (c :: rest) || vagaSearch rest

/-- `prop.endereco?.match(/VAGA\s*(DE\s*(ESTACIONAMENTO|GARAGEM))?\s*(?:N[°º]?\s*)?(\d+)/i)`
as a boolean test. -/
def addrVagaSearch (s : String) : Bool := vagaSearch s.toList

/-- `/VAGA|GARAG/i.test(prop.endereco || '')`. -/
def addrHasVagaGarag (s : String) : Bool :=
  strContainsCI s "vaga" || strContainsCI s "garag"

/-- Nominal-discount factor (0-25): awarded points and breakdown part. -/
def discPart (p : Property) : ℤ × String :=
  let disc := p.desconto.getD 0
  let discScore := min 25 (jsRound (disc * 25 / 70))
  (discScore, "Desc:" ++ toString discScore ++ "/25")

/-- Real-discount factor (0-25), neutral 10 when `descontoReal` is unknown. -/
def realPart (p : Property) : ℤ × String :=
  match p.descontoReal with
  | some dr =>
    let realScore := min 25 (max 0 (jsRound ((dr : ℚ) * 25 / 50)))
    (realScore, "Real:" ++ toString realScore ++ "/25")
  | none => (10, "Real:10/25(?)")

/-- Parking factor (0-15). -/
def vagasScorePart (p : Property) : ℤ × String :=
  match p.vagas with
  | some v =>
    if v ≥ 2 then (15, "Vagas:15/15")
    else if v == 1 then (10, "Vagas:10/15")
    else (0, "Vagas:0/15⛔")
  | none =>
    if p.semVagas then (0, "Vagas:0/15⛔")
    else if expectsParking p.tipo then (3, "Vagas:3/15(?)")
    else (8, "Vagas:8/15(n/a)")

/-- Priority-neighborhood factor (0-10). -/
def bairroPart (p : Property) : ℤ × String :=
  if p.prioridade then (10, "Bairro:10/10") else (3, "Bairro:3/10")

/-- Occupancy factor (0-10). -/
def ocupPart (p : Property) : ℤ × String :=
  if p.ocupacao == "desocupado" then (10, "Ocup:10/10")
  else if p.ocupacao == "ocupado" then (2, "Ocup:2/10")
  else (5, "Ocup:5/10(?)")

/-- Auction-urgency factor (0-15), time-dependent through `now`. -/
def prazoPart (now : ℚ) (p : Property) : ℤ × String :=
  match p.encerramento with
  | some t =>
    let daysUntil := jsCeil ((t - now) / (1000 * 60 * 60 * 24))
    if daysUntil ≤ 3 then (15, "Prazo:15/15")
    else if daysUntil ≤ 7 then (12, "Prazo:12/15")
    else if daysUntil ≤ 14 then (8, "Prazo:8/15")
    else if daysUntil ≤ 30 then (5, "Prazo:5/15")
    else (2, "Prazo:2/15")
  | none => (7, "Prazo:7/15(aberto)")

/-- `calculateScore`: the six factors summed and clamped from above at 100,
plus the joined breakdown string. -/
def calculateScore (now : ℚ) (p : Property) : ℤ × String :=
  let d := discPart p
  let r := realPart p
  let v := vagasScorePart p
  let b := bairroPart p
  let o := ocupPart p
  let z := prazoPart now p
  (min 100 (d.1 + r.1 + v.1 + b.1 + o.1 + z.1),
   String.intercalate " | " [d.2, r.2, v.2, b.2, o.2, z.2])

/-- Warning pushed for a Caixa apartment whose parking data is absent. -/
def vagasMissingAlert : String := "⚠️ Vagas não informadas na descrição"

/-- Strong above-market warning string (nested so that the literal head
stays a syntactic prefix). -/
def aboveMarketAlert (precoM2 avgM2 : ℤ) : String :=
  "📈 Acima do mercado! R$" ++
    (toString precoM2 ++ ("/m² vs média ajustada R$" ++ (toString avgM2 ++ "/m²")))

/-- Mild near-market warning string. -/
def nearMarketAlert (precoM2 avgM2 : ℤ) : String :=
  "⚠️ Próximo do mercado: R$" ++
    (toString precoM2 ++ ("/m² vs média ajustada R$" ++ (toString avgM2 ++ "/m²")))

/-- JS falsiness of the optional numeric `vagas` field (`!enriched.vagas`):
absent or zero. -/
def vagasFalsy : Option ℕ → Bool
  | none => true
  | some 0 => true
  | some (_ + 1) => false

/-- The address-based vagas step of `enrichProperty`: a falsy `vagas`
combined with a VAGA address match becomes `1`. -/
def vagasStep (p : Property) : Option ℕ :=
  if vagasFalsy p.vagas && addrVagaSearch p.endereco then some 1 else p.vagas

/-- JS truthiness of the optional string `area` field. -/
def areaTruthy : Option String → Bool
  | none => false
  | some s => !s.isEmpty

/-- Condition under which `enrichProperty` pushes the missing-parking
warning (`v` is the vagas value after the address step). -/
def vagasInfoAlertFlag (p : Property) (v : Option ℕ) : Bool :=
  expectsParking p.tipo && v == none && !p.semVagas &&
    p.fonte == "Caixa Econômica" && !addrHasVagaGarag p.endereco &&
    areaTruthy p.area && !strContains (p.area.getD "") "terreno:"

/-- Result of the market block of `enrichProperty`: the three derived
fields (kept at their incoming values on the guard paths, as the record
spread does) and the market-comparison alerts pushed. -/
structure MarketData where
  precoM2 : Option ℤ
  mediaM2Bairro : Option ℤ
  descontoReal : Option ℤ
  alerts : List String
deriving DecidableEq

/-- The `if (area && area > 10)` market block of `enrichProperty`. -/
def marketStep (p : Property) : MarketData :=
  match extractArea p.area with
  | none => ⟨p.precoM2, p.mediaM2Bairro, p.descontoReal, []⟩
  | some area =>
    if area > 10 then
      let pm := jsRound (p.lance / area)
      match findNeighborhoodAvg p.bairro (some area) p.tipo p.fonte with
      | none => ⟨some pm, p.mediaM2Bairro, p.descontoReal, []⟩
      | some avgM2 =>
        if avgM2 == 0 then ⟨some pm, p.mediaM2Bairro, p.descontoReal, []⟩
        else
          let dr := jsRound ((1 - (pm : ℚ) / (avgM2 : ℚ)) * 100)
          let alerts :=
            if dr < -20 then [aboveMarketAlert pm avgM2]
            else if dr < 0 then [nearMarketAlert pm avgM2]
            else []
          ⟨some pm, some avgM2, some dr, alerts⟩
    else ⟨p.precoM2, p.mediaM2Bairro, p.descontoReal, []⟩

/-- `enrichProperty`: vagas-from-address step, missing-parking warning,
market block, alert assembly (`alertas.length > 0 ? alertas : undefined`),
then scoring of the enriched record. -/
def enrichProperty (now : ℚ) (p : Property) : Property :=
  let v := vagasStep p
  let md := marketStep p
  let allAlerts :=
    alertasList p ++ (if vagasInfoAlertFlag p v then [vagasMissingAlert] else []) ++ md.alerts
  let q : Property :=
    { p with
      vagas := v
      precoM2 := md.precoM2
      mediaM2Bairro := md.mediaM2Bairro
      descontoReal := md.descontoReal
      alertas := if allAlerts.length > 0 then some allAlerts else none }
  let sb := calculateScore now q
  { q with score := some sb.1, scoreBreakdown := some sb.2 }

/-- One entry of `data/property-overrides.json`: may request
`semVagas = true` and/or extra alert strings. -/
structure OverrideEntry where
  semVagas : Bool
  alertas : Option (List String)
deriving DecidableEq

/-- The per-record override application of the `run-daily.ts` loop
(step 3.5): look the record id up in the override map; if found, possibly
force `semVagas` and append the supplied alert strings. -/
def overrideProp (overrides : List (String × OverrideEntry)) (p : Property) : Property :=
  match overrides.lookup p.id with
  | none => p
  | some ov =>
    let p1 := if ov.semVagas then { p with semVagas := true } else p
    match ov.alertas with
    | none => p1
    | some extra => { p1 with alertas := some (alertasList p1 ++ extra) }

/-- The override layer over the whole record list. -/
def applyOverrides (overrides : List (String × OverrideEntry)) (ps : List Property) : List Property :=
  ps.map (overrideProp overrides)

/-- Outcome of one scraper `Promise` under `Promise.allSettled`. -/
inductive ScrapeResult where
  | fulfilled (props : List Property)
  | rejected
deriving DecidableEq

/-- What one settled scraper contributes to the `sources` array of
`runDaily`: its list, but only when fulfilled with a non-empty list. -/
def sourceContribution : ScrapeResult → List (List Property)
  | .fulfilled ps => if ps.length > 0 then [ps] else []
  | .rejected => []

/-- The `sources` array collected by `runDaily` from the three scrapers. -/
def collectSources (zuk leilao caixa : ScrapeResult) : List (List Property) :=
  sourceContribution zuk ++ sourceContribution leilao ++ sourceContribution caixa

/-- The abort gate of `runDaily`: `sources.length === 0` exits before any
snapshot is written; otherwise the run proceeds to write today's file. -/
def runDailyAborts (zuk leilao caixa : ScrapeResult) : Bool :=
  (collectSources zuk leilao caixa).length == 0

/-- A source whose promise fulfilled (regardless of how many records it
returned). -/
def isFulfilled : ScrapeResult → Bool
  | .fulfilled _ => true
  | .rejected => false

/-- Amended-spec wording for the C6 gate: a source that succeeded *with
data*, i.e. fulfilled with a non-empty record list. -/
def fulfilledNonempty : ScrapeResult → Bool
  | .fulfilled ps => !ps.isEmpty
  | .rejected => false

/-- Amended-spec wording for the C5 lookup: the first table entry, in
iteration order, whose key is a substring of — or contains — the
normalized neighborhood name. -/
def lookupBySubstring (bairro : String) : Option ℤ :=
  (NEIGHBORHOOD_PRICE_M2.find? fun kv =>
    strContains (normalizeText bairro) kv.1 || strContains kv.1 (normalizeText bairro)).map
    Prod.snd

/-- Prefix test used to classify alert strings. -/
def strStartsWith (s pre : String) : Bool := pre.toList.isPrefixOf s.toList

/-- Classifier for the strong above-market warning. -/
def isAboveAlert (s : String) : Bool := strStartsWith s "📈 Acima do mercado!"

/-- Classifier for the mild near-market warning. -/
def isNearAlert (s : String) : Bool := strStartsWith s "⚠️ Próximo do mercado"

/-- A raw record with every optional field absent, used as the base of the
concrete test records below. -/
def baseProp : Property :=
  { id := "p0"
  , tipo := "Apartamento"
  , bairro := "Centro"
  , endereco := "Rua A, 100"
  , lance := 100000
  , avaliacao := none
  , desconto := none
  , modalidade := "Leilão"
  , encerramento := none
  , ocupacao := "desconhecido"
  , area := none
  , fonte := "Portal Zuk"
  , link := ""
  , novo := false
  , prioridade := false
  , semVagas := false
  , alertas := none
  , quartos := none
  , vagas := none
  , precoM2 := none
  , mediaM2Bairro := none
  , descontoReal := none
  , score := none
  , scoreBreakdown := none }

/-- The Batel end-to-end test record of the spec. -/
def c2prop : Property :=
  { baseProp with
    bairro := "Batel"
    area := some "50m²"
    lance := 300000 }

/-- Record exhibiting a score outside `[0,100]`: negative nominal discount
(a bid 50% above appraisal, as produced by the Zuk scraper when
`lance > avaliacao`), explicit zero parking, occupied, auction closing in
31 days. -/
def c1prop : Property :=
  { baseProp with
    desconto := some (-50)
    vagas := some 0
    ocupacao := "ocupado"
    encerramento := some (31 * 86400000) }

/-- A record whose enrichment produces a defined `descontoReal` (59% below
the adjusted Batel baseline) on top of an empty alert list. -/
def c3prop : Property :=
  { baseProp with
    bairro := "Batel"
    area := some "50m²"
    lance := 300000 }

/-- A record whose `area` string contains no parseable number. -/
def c4prop : Property :=
  { baseProp with area := some "sem area" }

/-- Concrete override map for the override-layer witness. -/
def ovW : List (String × OverrideEntry) :=
  [("a", ⟨true, some ["manual alert"]⟩)]

/-- Concrete record list for the override-layer witness. -/
def psW : List Property := [{ baseProp with id := "a" }]

/-- A record carrying one pre-existing alert. -/
def c9prop : Property :=
  { baseProp with alertas := some ["x"] }

/-- A record with an explicit zero parking count and a VAGA address. -/
def c10prop : Property :=
  { baseProp with
    vagas := some 0
    endereco := "VAGA DE GARAGEM N° 12, ED. ALFA" }

/-- Rounding is monotone: `jsRound` preserves `≤`. -/
theorem jsRound_mono {a b : ℚ} (h : a ≤ b) : jsRound a ≤ jsRound b := by
  unfold jsRound
  exact Rat.le_floor.mpr ((Rat.le_floor.mp le_rfl).trans (by linarith))

/-- A prefix of a list is a prefix of any right-extension of it. -/
theorem isPrefixOf_append_true {a : List Char} (c : List Char) :
    ∀ {b : List Char}, a.isPrefixOf b = true → a.isPrefixOf (b ++ c) = true := by
  induction a with
  | nil => intro b h; simp [List.isPrefixOf]
  | cons x xs ih =>
    intro b h
    cases b with
    | nil => simp [List.isPrefixOf] at h
    | cons y ys =>
      simp only [List.isPrefixOf, Bool.and_eq_true] at h
      simp only [List.cons_append, List.isPrefixOf, Bool.and_eq_true]
      exact ⟨h.1, ih h.2⟩

/-- Failing to be a prefix of a list at least as long as oneself cannot be
repaired by extending that list on the right. -/
theorem isPrefixOf_append_false {a : List Char} (c : List Char) :
    ∀ {b : List Char}, a.length ≤ b.length → a.isPrefixOf b = false →
      a.isPrefixOf (b ++ c) = false := by
  induction a with
  | nil => intro b hlen h; simp [List.isPrefixOf] at h
  | cons x xs ih =>
    intro b hlen h
    cases b with
    | nil => simp at hlen
    | cons y ys =>
      simp only [List.isPrefixOf] at h
      simp only [List.cons_append, List.isPrefixOf]
      cases hxy : x == y with
      | false => simp
      | true =>
        have h2 : xs.isPrefixOf ys = false := by simpa [hxy] using h
        simpa [hxy] using ih (by simpa using hlen) h2

/-- Character list of a string concatenation. -/
theorem toList_append (s t : String) : (s ++ t).toList = s.toList ++ t.toList := by
  simp [String.toList]

/-- A prefix of a string literal stays a prefix after appending. -/
theorem strStartsWith_append_true (lit rest pre : String)
    (h : strStartsWith lit pre = true) : strStartsWith (lit ++ rest) pre = true := by
  unfold strStartsWith at h ⊢
  rw [toList_append]
  exact isPrefixOf_append_true _ h

/-- A non-prefix of a long-enough string literal stays a non-prefix after
appending. -/
theorem strStartsWith_append_false (lit rest pre : String)
    (hlen : pre.toList.length ≤ lit.toList.length) (h : strStartsWith lit pre = false) :
    strStartsWith (lit ++ rest) pre = false := by
  unfold strStartsWith at h ⊢
  rw [toList_append]
  exact isPrefixOf_append_false _ hlen h

/-- Every generated above-market warning is classified as such. -/
theorem isAboveAlert_above (pm avg : ℤ) : isAboveAlert (aboveMarketAlert pm avg) = true :=
  strStartsWith_append_true _ _ _ (by decide)

/-- No generated above-market warning is classified as near-market. -/
theorem isNearAlert_above (pm avg : ℤ) : isNearAlert (aboveMarketAlert pm avg) = false :=
  strStartsWith_append_false _ _ _ (by decide) (by decide)

/-- No generated near-market warning is classified as above-market. -/
theorem isAboveAlert_near (pm avg : ℤ) : isAboveAlert (nearMarketAlert pm avg) = false :=
  strStartsWith_append_false _ _ _ (by decide) (by decide)

/-- Every generated near-market warning is classified as such. -/
theorem isNearAlert_near (pm avg : ℤ) : isNearAlert (nearMarketAlert pm avg) = true :=
  strStartsWith_append_true _ _ _ (by decide)

/-- The missing-parking warning is not an above-market warning. -/
theorem isAboveAlert_missing : isAboveAlert vagasMissingAlert = false := by decide

/-- The missing-parking warning is not a near-market warning. -/
theorem isNearAlert_missing : isNearAlert vagasMissingAlert = false := by decide

/-- The lookup loop returns exactly the first related entry in list order. -/
theorem findBaseAvgAux_eq_find (norm : String) (l : List (String × ℤ)) :
    findBaseAvgAux norm l =
      (l.find? fun kv => strContains norm kv.1 || strContains kv.1 norm).map Prod.snd := by
  induction l with
  | nil => rfl
  | cons kv rest ih =>
    rcases kv with ⟨key, val⟩
    cases hpred : (strContains norm key || strContains key norm) <;>
      simp [findBaseAvgAux, List.find?_cons, hpred, ih]

/-- Projection facts for `enrichProperty`. -/
theorem enrich_descontoReal (now : ℚ) (p : Property) :
    (enrichProperty now p).descontoReal = (marketStep p).descontoReal := rfl

/-- The enriched `precoM2` is the market-block result. -/
theorem enrich_precoM2 (now : ℚ) (p : Property) :
    (enrichProperty now p).precoM2 = (marketStep p).precoM2 := rfl

/-- The enriched `mediaM2Bairro` is the market-block result. -/
theorem enrich_mediaM2Bairro (now : ℚ) (p : Property) :
    (enrichProperty now p).mediaM2Bairro = (marketStep p).mediaM2Bairro := rfl

/-- The enriched `vagas` is the address-step result. -/
theorem enrich_vagas (now : ℚ) (p : Property) :
    (enrichProperty now p).vagas = vagasStep p := rfl

/-- Enrichment never touches `semVagas`. -/
theorem enrich_semVagas (now : ℚ) (p : Property) :
    (enrichProperty now p).semVagas = p.semVagas := rfl

/-- The final alert list of an enriched record: the incoming alerts,
then the optional missing-parking warning, then the market warnings
(the `length > 0` dance collapses to this because an absent `alertas`
reads back as the empty list). -/
theorem alertasList_enrich (now : ℚ) (p : Property) :
    alertasList (enrichProperty now p) =
      alertasList p ++
        (if vagasInfoAlertFlag p (vagasStep p) then [vagasMissingAlert] else []) ++
        (marketStep p).alerts := by
  have hx : ∀ L : List String, (if L.length > 0 then some L else none).getD [] = L := by
    intro L
    cases L <;> simp
  exact hx _

/-- Market block when the area string yields nothing. -/
theorem marketStep_noArea (p : Property) (hea : extractArea p.area = none) :
    marketStep p = ⟨p.precoM2, p.mediaM2Bairro, p.descontoReal, []⟩ := by
  unfold marketStep
  rw [hea]

/-- Market block when the extracted area is at or below the 10 m² floor. -/
theorem marketStep_smallArea (p : Property) (area : ℚ)
    (hea : extractArea p.area = some area) (hle : ¬ area > 10) :
    marketStep p = ⟨p.precoM2, p.mediaM2Bairro, p.descontoReal, []⟩ := by
  unfold marketStep
  simp only [hea]
  rw [if_neg hle]

/-- Market block when the neighborhood has no baseline. -/
theorem marketStep_noAvg (p : Property) (area : ℚ)
    (hea : extractArea p.area = some area) (h10 : area > 10)
    (havg : findNeighborhoodAvg p.bairro (some area) p.tipo p.fonte = none) :
    marketStep p = ⟨some (jsRound (p.lance / area)), p.mediaM2Bairro, p.descontoReal, []⟩ := by
  unfold marketStep
  simp only [hea, if_pos h10, havg]

/-- Market block when the found baseline is zero (the JS falsiness guard
`if (avgM2)`). -/
theorem marketStep_avgZero (p : Property) (area : ℚ)
    (hea : extractArea p.area = some area) (h10 : area > 10)
    (havg : findNeighborhoodAvg p.bairro (some area) p.tipo p.fonte = some 0) :
    marketStep p = ⟨some (jsRound (p.lance / area)), p.mediaM2Bairro, p.descontoReal, []⟩ := by
  unfold marketStep
  simp only [hea, if_pos h10, havg]
  rw [if_pos (by decide)]

/-- Market block on the live path: area above the floor and an adjusted
baseline found. -/
theorem marketStep_live (p : Property) (area : ℚ) (avg : ℤ)
    (hea : extractArea p.area = some area) (h10 : area > 10)
    (havg : findNeighborhoodAvg p.bairro (some area) p.tipo p.fonte = some avg)
    (hz : (avg == 0) = false) :
    marketStep p =
      ⟨some (jsRound (p.lance / area)), some avg,
       some (jsRound ((1 - (jsRound (p.lance / area) : ℚ) / (avg : ℚ)) * 100)),
       (if jsRound ((1 - (jsRound (p.lance / area) : ℚ) / (avg : ℚ)) * 100) < -20 then
          [aboveMarketAlert (jsRound (p.lance / area)) avg]
        else if jsRound ((1 - (jsRound (p.lance / area) : ℚ) / (avg : ℚ)) * 100) < 0 then
          [nearMarketAlert (jsRound (p.lance / area)) avg]
        else [])⟩ := by
  unfold marketStep
  simp only [hea, if_pos h10, havg, hz, Bool.false_eq_true, if_false]

/-- When the incoming record has no `descontoReal` and the market block
produces one, the block pushed exactly the alert the thresholds dictate. -/
theorem marketStep_counts (p : Property) (h0 : p.descontoReal = none) (dr : ℤ)
    (h : (marketStep p).descontoReal = some dr) :
    (marketStep p).alerts.countP isAboveAlert = (if dr < -20 then 1 else 0) ∧
    (marketStep p).alerts.countP isNearAlert = (if -20 ≤ dr ∧ dr < 0 then 1 else 0) := by
  cases hea : extractArea p.area with
  | none =>
    rw [marketStep_noArea p hea, h0] at h
    exact absurd h (by simp)
  | some area =>
    by_cases h10 : area > 10
    · cases havg : findNeighborhoodAvg p.bairro (some area) p.tipo p.fonte with
      | none =>
        rw [marketStep_noAvg p area hea h10 havg, h0] at h
        exact absurd h (by simp)
      | some avg =>
        cases hz : (avg == 0) with
        | true =>
          have havg0 : avg = 0 := by simpa using hz
          subst havg0
          rw [marketStep_avgZero p area hea h10 havg, h0] at h
          exact absurd h (by simp)
        | false =>
          rw [marketStep_live p area avg hea h10 havg hz] at h ⊢
          set drv := jsRound ((1 - (jsRound (p.lance / area) : ℚ) / (avg : ℚ)) * 100) with hdrv
          obtain rfl : drv = dr := Option.some.inj h
          constructor
          · by_cases hA : drv < -20
            · simp [hA, List.countP_cons, List.countP_nil, isAboveAlert_above]
            · by_cases hB : drv < 0
              · simp [hA, hB, List.countP_cons, List.countP_nil, isAboveAlert_near]
              · simp [hA, hB, List.countP_nil]
          · by_cases hA : drv < -20
            · have hno : ¬(-20 ≤ drv ∧ drv < 0) := by omega
              simp [hA, hno, List.countP_cons, List.countP_nil, isNearAlert_above]
            · by_cases hB : drv < 0
              · have hyes : -20 ≤ drv ∧ drv < 0 := by omega
                simp [hA, hB, hyes, List.countP_cons, List.countP_nil, isNearAlert_near]
              · have hno : ¬(-20 ≤ drv ∧ drv < 0) := by omega
                simp [hA, hB, hno, List.countP_nil]
    · rw [marketStep_smallArea p area hea h10, h0] at h
      exact absurd h (by simp)

/-- Closed form of the per-record override application. -/
theorem overrideProp_eq (m : List (String × OverrideEntry)) (p : Property) :
    overrideProp m p =
      match m.lookup p.id with
      | none => p
      | some ov =>
        { p with
          semVagas := ov.semVagas || p.semVagas
          alertas :=
            match ov.alertas with
            | none => p.alertas
            | some extra => some (alertasList p ++ extra) } := by
  unfold overrideProp
  rcases hlk : m.lookup p.id with _ | ov
  · rfl
  · rcases hsv : ov.semVagas <;> rcases hal : ov.alertas with _ | extra <;>
      simp [hsv, hal, alertasList]

/-- All fields of a record other than `semVagas` and `alertas` agree. -/
def OverrideFrame (p q : Property) : Prop :=
  q.id = p.id ∧ q.tipo = p.tipo ∧ q.bairro = p.bairro ∧ q.endereco = p.endereco ∧
  q.lance = p.lance ∧ q.avaliacao = p.avaliacao ∧ q.desconto = p.desconto ∧
  q.modalidade = p.modalidade ∧ q.encerramento = p.encerramento ∧
  q.ocupacao = p.ocupacao ∧ q.area = p.area ∧ q.fonte = p.fonte ∧ q.link = p.link ∧
  q.novo = p.novo ∧ q.prioridade = p.prioridade ∧ q.quartos = p.quartos ∧
  q.vagas = p.vagas ∧ q.precoM2 = p.precoM2 ∧ q.mediaM2Bairro = p.mediaM2Bairro ∧
  q.descontoReal = p.descontoReal ∧ q.score = p.score ∧ q.scoreBreakdown = p.scoreBreakdown

/-- How the override layer acts on one record: an unmatched id leaves the
record untouched, a matched id can only force `semVagas` to `true` and
append the supplied strings to the warning list. -/
def OverrideAction (m : List (String × OverrideEntry)) (p : Property) : Prop :=
  (m.lookup p.id = none → overrideProp m p = p) ∧
  ∀ ov, m.lookup p.id = some ov →
    (overrideProp m p).semVagas = (ov.semVagas || p.semVagas) ∧
    alertasList (overrideProp m p) = alertasList p ++ ov.alertas.getD []

/-- The override application only touches `semVagas` and `alertas`. -/
theorem overrideProp_frame (m : List (String × OverrideEntry)) (p : Property) :
    OverrideFrame p (overrideProp m p) := by
  rw [overrideProp_eq]
  rcases hlk : m.lookup p.id with _ | ov
  · exact ⟨rfl, rfl, rfl, rfl, rfl, rfl, rfl, rfl, rfl, rfl, rfl, rfl, rfl, rfl, rfl, rfl,
      rfl, rfl, rfl, rfl, rfl, rfl⟩
  · exact ⟨rfl, rfl, rfl, rfl, rfl, rfl, rfl, rfl, rfl, rfl, rfl, rfl, rfl, rfl, rfl, rfl,
      rfl, rfl, rfl, rfl, rfl, rfl⟩

/-- The override application acts as `OverrideAction` describes. -/
theorem overrideProp_action (m : List (String × OverrideEntry)) (p : Property) :
    OverrideAction m p := by
  constructor
  · intro hlk
    rw [overrideProp_eq, hlk]
  · intro ov hlk
    rw [overrideProp_eq, hlk]
    constructor
    · rfl
    · rcases hal : ov.alertas with _ | extra
      · simp [alertasList, hal]
      · simp [alertasList, hal]

/-- C1: the claim says every record handed to the scoring engine gets a
score in `[0,100]`, matching the code's own documentation ("Deal quality
score 0-100"); but `calculateScore` only clamps from above, so the record
`c1prop` (nominal discount `-50`, zero parking, occupied, closing in 31
days) is enriched to a score of `-1`, outside `[0,100]`. -/
theorem c1_score_out_of_range : (enrichProperty 0 c1prop).score = some (-1) := by
  with_unfolding_all rfl

/-- C2: the Batel end-to-end example — table baseline 16240, adjusted
baseline `round(16240 * 0.90) = 14616` (apartment factor 1.0),
`precoM2 = round(300000 / 50) = 6000`, `descontoReal = 59`, and the
real-discount factor saturates at its 25-point maximum. -/
theorem c2_batel_end_to_end :
    findNeighborhoodBaseAvg "Batel" = some 16240 ∧
    adjustedMarketPrice 16240 (some 50) "Apartamento" "Portal Zuk" = 14616 ∧
    (enrichProperty 0 c2prop).precoM2 = some 6000 ∧
    (enrichProperty 0 c2prop).mediaM2Bairro = some 14616 ∧
    (enrichProperty 0 c2prop).descontoReal = some 59 ∧
    (realPart (enrichProperty 0 c2prop)).1 = 25 := by
  refine ⟨?_, ?_, ?_, ?_, ?_, ?_⟩ <;> with_unfolding_all rfl

/-- C3: for a record without a pre-existing `descontoReal` whose
enrichment defines one, the alerts appended by enrichment contain exactly
one strong above-market warning when `descontoReal < -20`, exactly one
mild near-market warning when `-20 ≤ descontoReal < 0`, and no
market-comparison warning when `descontoReal ≥ 0`. -/
theorem c3_market_alert_thresholds (now : ℚ) (p : Property)
    (h0 : p.descontoReal = none) (dr : ℤ)
    (h : (enrichProperty now p).descontoReal = some dr) :
    ((alertasList (enrichProperty now p)).drop (alertasList p).length).countP isAboveAlert
        = (if dr < -20 then 1 else 0) ∧
    ((alertasList (enrichProperty now p)).drop (alertasList p).length).countP isNearAlert
        = (if -20 ≤ dr ∧ dr < 0 then 1 else 0) := by
  rw [enrich_descontoReal] at h
  have hc := marketStep_counts p h0 dr h
  rw [alertasList_enrich, List.append_assoc, List.drop_left, List.countP_append,
    List.countP_append]
  have hva : (if vagasInfoAlertFlag p (vagasStep p) then [vagasMissingAlert] else []).countP
      isAboveAlert = 0 := by
    split <;> simp [List.countP_cons, List.countP_nil, isAboveAlert_missing]
  have hvn : (if vagasInfoAlertFlag p (vagasStep p) then [vagasMissingAlert] else []).countP
      isNearAlert = 0 := by
    split <;> simp [List.countP_cons, List.countP_nil, isNearAlert_missing]
  rw [hva, hvn, hc.1, hc.2]
  omega

/-- Witness for C3 at the Batel record: `descontoReal` starts absent, the
enriched value is 59, and no market warning of either kind is appended. -/
theorem c3_market_alert_thresholds_witness :
    c3prop.descontoReal = none ∧
    (enrichProperty 0 c3prop).descontoReal = some 59 ∧
    (((alertasList (enrichProperty 0 c3prop)).drop
        (alertasList c3prop).length).countP isAboveAlert = (if (59 : ℤ) < -20 then 1 else 0) ∧
      ((alertasList (enrichProperty 0 c3prop)).drop
        (alertasList c3prop).length).countP isNearAlert
          = (if -20 ≤ (59 : ℤ) ∧ (59 : ℤ) < 0 then 1 else 0)) :=
  ⟨rfl, of_decide_eq_true (by with_unfolding_all rfl),
    c3_market_alert_thresholds 0 c3prop rfl 59 (of_decide_eq_true (by with_unfolding_all rfl))⟩

/-- C4: when the `area` string is missing, unparseable, or yields a value
at or below the 10 m² floor, enrichment leaves `precoM2`, `mediaM2Bairro`
and `descontoReal` unset and appends no above-market warning. -/
theorem c4_area_guard (now : ℚ) (p : Property)
    (h1 : p.precoM2 = none) (h2 : p.mediaM2Bairro = none) (h3 : p.descontoReal = none)
    (ha : (extractArea p.area).getD 0 ≤ 10) :
    (enrichProperty now p).precoM2 = none ∧
    (enrichProperty now p).mediaM2Bairro = none ∧
    (enrichProperty now p).descontoReal = none ∧
    (alertasList (enrichProperty now p)).countP isAboveAlert
      = (alertasList p).countP isAboveAlert := by
  have hms : marketStep p = ⟨p.precoM2, p.mediaM2Bairro, p.descontoReal, []⟩ := by
    cases hea : extractArea p.area with
    | none => exact marketStep_noArea p hea
    | some area =>
      rw [hea] at ha
      simp only [Option.getD_some] at ha
      exact marketStep_smallArea p area hea (not_lt.mpr ha)
  refine ⟨?_, ?_, ?_, ?_⟩
  · rw [enrich_precoM2, hms, h1]
  · rw [enrich_mediaM2Bairro, hms, h2]
  · rw [enrich_descontoReal, hms, h3]
  · rw [alertasList_enrich, List.countP_append, List.countP_append, hms]
    have hva : (if vagasInfoAlertFlag p (vagasStep p) then [vagasMissingAlert] else []).countP
        isAboveAlert = 0 := by
      split <;> simp [List.countP_cons, List.countP_nil, isAboveAlert_missing]
    rw [hva]
    simp [List.countP_nil]

/-- Witness for C4 at a record whose area string has no number in it. -/
theorem c4_area_guard_witness :
    (extractArea c4prop.area).getD 0 ≤ 10 ∧
    ((enrichProperty 0 c4prop).precoM2 = none ∧
      (enrichProperty 0 c4prop).mediaM2Bairro = none ∧
      (enrichProperty 0 c4prop).descontoReal = none ∧
      (alertasList (enrichProperty 0 c4prop)).countP isAboveAlert
        = (alertasList c4prop).countP isAboveAlert) :=
  ⟨of_decide_eq_true (by with_unfolding_all rfl),
    c4_area_guard 0 c4prop rfl rfl rfl (of_decide_eq_true (by with_unfolding_all rfl))⟩

/-- C5 counterexample: the claim promises that an exactly matching table
key always wins, but for the normalized neighborhood "alto boqueirao" the
exact key `alto boqueirao` (value 5200) exists and the lookup still
returns 5800, the value of the earlier entry `boqueirao`, whose key is
merely contained in the name. -/
theorem c5_lookup_counterexample :
    ("alto boqueirao", (5200 : ℤ)) ∈ NEIGHBORHOOD_PRICE_M2 ∧
    normalizeText "alto boqueirao" = "alto boqueirao" ∧
    findNeighborhoodBaseAvg "alto boqueirao" = some 5800 ∧
    (5800 : ℤ) ≠ 5200 := by
  refine ⟨?_, ?_, ?_, ?_⟩ <;> decide

/-- C5 (amended): the baseline lookup returns the value of the first table
entry, in table iteration order, whose key is a substring of — or contains
— the normalized neighborhood name, with no special priority for exact
matches; it returns nothing when no entry is related. -/
theorem c5_first_match_in_table_order (bairro : String) :
    findNeighborhoodBaseAvg bairro = lookupBySubstring bairro :=
  findBaseAvgAux_eq_find (normalizeText bairro) NEIGHBORHOOD_PRICE_M2

/-- C6 counterexample: a run in which one source succeeds (fulfils) with
an empty record list while the other two fail still aborts, so "aborts iff
every source fails" is false. -/
theorem c6_gate_counterexample :
    isFulfilled (ScrapeResult.fulfilled ([] : List Property)) = true ∧
    runDailyAborts (ScrapeResult.fulfilled []) ScrapeResult.rejected ScrapeResult.rejected
      = true :=
  ⟨rfl, rfl⟩

/-- C6 (amended): the daily run proceeds to write today's snapshot if and
only if at least one source fulfilled with a non-empty property list; it
aborts exactly when every source either failed or returned no records. -/
theorem c6_gate_iff (z l c : ScrapeResult) :
    runDailyAborts z l c = false ↔
      (fulfilledNonempty z || fulfilledNonempty l || fulfilledNonempty c) = true := by
  have hlen : ∀ r : ScrapeResult,
      (sourceContribution r).length = if fulfilledNonempty r then 1 else 0 := by
    intro r
    rcases r with ps | _
    · rcases ps with _ | ⟨x, xs⟩ <;> simp [sourceContribution, fulfilledNonempty]
    · rfl
  unfold runDailyAborts collectSources
  rw [List.length_append, List.length_append, hlen, hlen, hlen]
  cases hz : fulfilledNonempty z <;> cases hl : fulfilledNonempty l <;>
    cases hc : fulfilledNonempty c <;> simp

/-- C7: the override layer never creates, removes or reorders records; a
record whose id misses the map is untouched, and a matched record changes
at most by `semVagas` being forced to `true` and the supplied strings
being appended to `alertas`, every other field staying as it was. -/
theorem c7_override_frame (m : List (String × OverrideEntry)) (ps : List Property)
    (i : ℕ) (h : i < ps.length) :
    (applyOverrides m ps).length = ps.length ∧
    (applyOverrides m ps)[i]? = some (overrideProp m (ps.get ⟨i, h⟩)) ∧
    OverrideFrame (ps.get ⟨i, h⟩) (overrideProp m (ps.get ⟨i, h⟩)) ∧
    OverrideAction m (ps.get ⟨i, h⟩) := by
  refine ⟨List.length_map ps (overrideProp m), ?_, overrideProp_frame m _,
    overrideProp_action m _⟩
  unfold applyOverrides
  rw [List.getElem?_map, List.getElem?_eq_getElem h]
  rfl

/-- Witness for C7 on a one-element list whose id is matched by the map. -/
theorem c7_override_frame_witness :
    0 < psW.length ∧
    ((applyOverrides ovW psW).length = psW.length ∧
      (applyOverrides ovW psW)[0]? = some (overrideProp ovW (psW.get ⟨0, by decide⟩)) ∧
      OverrideFrame (psW.get ⟨0, by decide⟩) (overrideProp ovW (psW.get ⟨0, by decide⟩)) ∧
      OverrideAction ovW (psW.get ⟨0, by decide⟩)) :=
  ⟨by decide, c7_override_frame ovW psW 0 (by decide)⟩

/-- C8: with every other input fixed, a larger nominal discount never
produces a smaller score. -/
theorem c8_score_monotone_desconto (now : ℚ) (p : Property) (d1 d2 : ℚ) (h : d1 ≤ d2) :
    (calculateScore now { p with desconto := some d1 }).1 ≤
      (calculateScore now { p with desconto := some d2 }).1 := by
  have hdisc : (discPart { p with desconto := some d1 }).1 ≤
      (discPart { p with desconto := some d2 }).1 := by
    show min 25 (jsRound (d1 * 25 / 70)) ≤ min 25 (jsRound (d2 * 25 / 70))
    refine min_le_min le_rfl (jsRound_mono ?_)
    gcongr
  show min 100 ((discPart { p with desconto := some d1 }).1 + (realPart p).1 +
      (vagasScorePart p).1 + (bairroPart p).1 + (ocupPart p).1 + (prazoPart now p).1) ≤
    min 100 ((discPart { p with desconto := some d2 }).1 + (realPart p).1 +
      (vagasScorePart p).1 + (bairroPart p).1 + (ocupPart p).1 + (prazoPart now p).1)
  exact min_le_min le_rfl (by linarith)

/-- Witness for C8: discounts 10 and 20 on the base record. -/
theorem c8_score_monotone_desconto_witness :
    (10 : ℚ) ≤ 20 ∧
    (calculateScore 0 { baseProp with desconto := some 10 }).1 ≤
      (calculateScore 0 { baseProp with desconto := some 20 }).1 :=
  ⟨of_decide_eq_true (by with_unfolding_all rfl),
    c8_score_monotone_desconto 0 baseProp 10 20 (of_decide_eq_true (by with_unfolding_all rfl))⟩

/-- C9: a warning string present in a record's `alertas` before the
override layer or before enrichment (which also performs the scoring) is
still present afterwards — neither stage drops an existing alert. -/
theorem c9_alerts_never_dropped (now : ℚ) (m : List (String × OverrideEntry))
    (p : Property) (a : String) (h : a ∈ alertasList p) :
    a ∈ alertasList (overrideProp m p) ∧ a ∈ alertasList (enrichProperty now p) := by
  constructor
  · have hact := overrideProp_action m p
    rcases hlk : m.lookup p.id with _ | ov
    · rw [hact.1 hlk]
      exact h
    · rw [(hact.2 ov hlk).2]
      exact List.mem_append_left _ h
  · rw [alertasList_enrich, List.append_assoc]
    exact List.mem_append_left _ h

/-- Witness for C9: the alert `x` survives an empty override map and
enrichment. -/
theorem c9_alerts_never_dropped_witness :
    "x" ∈ alertasList c9prop ∧
    ("x" ∈ alertasList (overrideProp [] c9prop) ∧
      "x" ∈ alertasList (enrichProperty 0 c9prop)) :=
  ⟨by decide, c9_alerts_never_dropped 0 [] c9prop "x" (by decide)⟩

/-- C10: a record whose `vagas` is absent or explicitly `0` and whose
address matches the VAGA pattern has its `vagas` set to 1 by enrichment —
an explicit zero is overwritten — while `semVagas` keeps its prior value. -/
theorem c10_vaga_address_overwrite (now : ℚ) (p : Property)
    (hv : p.vagas = none ∨ p.vagas = some 0)
    (hm : addrVagaSearch p.endereco = true) :
    (enrichProperty now p).vagas = some 1 ∧
    (enrichProperty now p).semVagas = p.semVagas := by
  have hstep : vagasStep p = some 1 := by
    unfold vagasStep
    rcases hv with hv | hv <;> rw [hv] <;> simp [vagasFalsy, hm]
  exact ⟨by rw [enrich_vagas, hstep], enrich_semVagas now p⟩

/-- Witness for C10 on a parking-spot listing with an explicit zero. -/
theorem c10_vaga_address_overwrite_witness :
    (c10prop.vagas = none ∨ c10prop.vagas = some 0) ∧
    addrVagaSearch c10prop.endereco = true ∧
    ((enrichProperty 0 c10prop).vagas = some 1 ∧
      (enrichProperty 0 c10prop).semVagas = c10prop.semVagas) :=
  ⟨Or.inr rfl, by decide,
    c10_vaga_address_overwrite 0 c10prop (Or.inr rfl) (by decide)⟩

end Leilao
